import Mathlib

/-!
# libusbtuner: a shallow embedding of `src/libusbtuner.c`

The interposition library hooks `open`, `open64`, `close`, `__xstat` and
`__xstat64`, binds USB tuners to virtual-tuner devices and bridges PID-filter
updates.  The definitions below follow the C functions one by one:

* C strings are `List Char` (the characters before the terminating NUL);
* C `int` values are `Int`, array indices and `__u16` values are `Nat`;
* every call that leaves the library (the authentic libc operations, `ioctl`,
  thread start) is recorded as an `Event`, and what it returns is read from an
  `Env`, which may depend on everything that was called before.
-/

namespace Libusbtuner

/-! ## Constants -/

/-- A C string: the characters before the terminating NUL. -/
abbrev CString := List Char

def MAX_ADAPTERS : Nat := 8

/-- The value `0xffff` that marks an unused `pidlist` entry. -/
def PID_UNUSED : Nat := 0xffff

def EBUSY : Int := 16
def EACCES : Int := 13
def ENOMEM : Int := 12

def O_RDWR : Int := 2

/-- The C type `__u16 pidlist[36]`. -/
abbrev PidList := { l : List Nat // l.length = 36 }

/-! ## Calls that leave the library -/

/-- The `ioctl` requests the library issues, with their argument. -/
inductive Ioctl where
  | VTUNER_SET_RESPONSE (type : Int)
  | VTUNER_SET_NAME (name : CString)
  | VTUNER_SET_TYPE (modes : List CString)
  | VTUNER_SET_HAS_OUTPUTS (arg : CString)
  | VTUNER_SET_NUM_MODES (num_modes : Nat)
  | VTUNER_SET_MODES (modes : List CString)
  | FE_GET_PROPERTY
  | DMX_REMOVE_PID (pid : Nat)
  | DMX_ADD_PID (pid : Nat)
  deriving DecidableEq, Repr

/-- One call made by the library, in the order of the C source. -/
inductive Event where
  | libc_open (pathname : CString) (flags : Int) (mode : Option Int)
  | libc_open64 (pathname : CString) (flags : Int) (mode : Option Int)
  | libc_close (fd : Int)
  | libc_stat (ver : Int) (path : CString)
  | libc_stat64 (ver : Int) (path : CString)
  | ioctl (fd : Int) (req : Ioctl)
  | malloc (size : Nat)
  | pthread_create_data_task (slot : Nat)
  | pthread_join_pumpthread (slot : Nat)
  deriving DecidableEq, Repr

/-- The entry of `struct vtuner_adapter`. -/
structure vtuner_adapter where
  idx : Nat
  name : CString
  frontend : Int
  demux : Int
  vtuner : Int
  vtuneridx : Nat
  running : Int
  vtunerfeidx : Nat
  eventthread : Nat
  pumpthread : Nat
  pidlist : PidList
  deriving DecidableEq

/-! ## `event_task`: the `MSG_PIDLIST` case (lines 208-274) -/

/-- The inner `for (j = 0; j < 36; j++)` loop: `found` is set at the first
entry equal to `pid`. -/
def pid_found (pid : Nat) : List Nat → Bool
  | [] => false
  | q :: rest => if pid = q then true else pid_found pid rest

/-- The loop under `/* remove old pids */`, over the entries `olds` of
`adapter->pidlist` that are still to visit. -/
def remove_old_pids (demux : Int) (message : List Nat) : List Nat → List Event
  | [] => []
  | p :: olds =>
    if p ≠ PID_UNUSED then
      if ¬ pid_found p message then
        Event.ioctl demux (Ioctl.DMX_REMOVE_PID p) :: remove_old_pids demux message olds
      else remove_old_pids demux message olds
    else remove_old_pids demux message olds

/-- The loop under `/* add new pids */`, over the entries `news` of
`message.body.pidlist` that are still to visit. -/
def add_new_pids (demux : Int) (current : List Nat) : List Nat → List Event
  | [] => []
  | p :: news =>
    if p ≠ PID_UNUSED then
      if ¬ pid_found p current then
        Event.ioctl demux (Ioctl.DMX_ADD_PID p) :: add_new_pids demux current news
      else add_new_pids demux current news
    else add_new_pids demux current news

/-- The `case MSG_PIDLIST:` block of `event_task`: the commands sent to the
demultiplexer, then the adapter with `message.body.pidlist` copied over its
`pidlist`.  No response is posted for this message type. -/
def msg_pidlist (adapter : vtuner_adapter) (message : PidList) :
    vtuner_adapter × List Event :=
  let removed := remove_old_pids adapter.demux message.val adapter.pidlist.val
  let added := add_new_pids adapter.demux adapter.pidlist.val message.val
  ({ adapter with pidlist := message }, removed ++ added)

/-- Whether an event is a `DMX_REMOVE_PID` or `DMX_ADD_PID` command. -/
def Event.isPidCommand : Event → Bool
  | Event.ioctl _ (Ioctl.DMX_REMOVE_PID _) => true
  | Event.ioctl _ (Ioctl.DMX_ADD_PID _) => true
  | _ => false

/-- The set of identifiers of a list: its entries other than `0xffff`. -/
def pidSet (l : PidList) : Finset Nat :=
  (l.val.filter (fun p => p ≠ PID_UNUSED)).toFinset

/-- No identifier other than `0xffff` occurs twice in the list. -/
def pidsDistinct (l : PidList) : Prop :=
  (l.val.filter (fun p => p ≠ PID_UNUSED)).Nodup

instance (l : PidList) : Decidable (pidsDistinct l) := by
  unfold pidsDistinct; infer_instance

/-- A list with the identifiers `pids` in its first entries and `0xffff` in
the others. -/
def pidListOf (pids : List Nat) (h : pids.length ≤ 36) : PidList :=
  ⟨pids ++ List.replicate (36 - pids.length) PID_UNUSED, by
    simp only [List.length_append, List.length_replicate]; omega⟩

/-- An adapter that is streaming, with the given active identifiers. -/
def streamingAdapter (pids : PidList) : vtuner_adapter :=
  { idx := 1, name := "TunerX".toList, frontend := 7, demux := 8, vtuner := 5,
    vtuneridx := 0, running := 1, vtunerfeidx := 1, eventthread := 1,
    pumpthread := 1, pidlist := pids }

/-! ## The world outside the library -/

/-- What the calls that leave the library return.  Every entry receives the
events so far, so that a call may answer differently each time it is made.
The authentic libc operations return their value and the `errno` they leave
when that value is negative. -/
structure Env where
  libc_open : List Event → CString → Int → Option Int → Int × Int
  libc_open64 : List Event → CString → Int → Option Int → Int × Int
  libc_close : List Event → Int → Int × Int
  libc_stat : List Event → Int → CString → Int × Int
  libc_stat64 : List Event → Int → CString → Int × Int
  /-- The value of `ioctl(fd, FE_GET_PROPERTY, &props)` for `DTV_ENUM_DELSYS`
  and the entries `p[0].u.buffer.data[0 .. len)` it fills in. -/
  fe_get_property : List Event → Int → Int × List Nat
  /-- Whether `pthread_create` of line 609 returns 0. -/
  pthread_create_ok : List Event → Nat → Bool
  /-- How the busy-wait of line 615 ends once `data_task` runs on the slot's
  own entry: `some demux` when `eventthread` became non-null with `running`
  still set, `demux` being the demultiplexer handle `data_task` opened; `none`
  when `data_task` cleared `running` first (the demultiplexer could not be
  opened or the event thread could not be created). -/
  bridge_started : List Event → Nat → Option Int
  /-- The `errno` that `printf`, `perror` and the other calls whose effect on
  `errno` is not followed leave behind, from the events and the `errno`
  before them. -/
  errno_after : List Event → Int → Int

/-! ## `init_adapter` (lines 395-521) -/

/-- Delivery systems of `fe_delivery_system_t` in `<linux/dvb/frontend.h>`. -/
def SYS_DVBC_ANNEX_A : Nat := 1
def SYS_DVBT : Nat := 3
def SYS_DVBS : Nat := 5
def SYS_DVBS2 : Nat := 6
def SYS_DVBT2 : Nat := 16

def BUFFER_SIZE : Nat := (188 / 4) * 4096

/-- The C expression `mode_mask & ~bits` on a non-negative 32-bit `int`. -/
def mask_clear (mode_mask bits : Nat) : Nat := mode_mask &&& (0xffffffff ^^^ bits)

/-- The `switch` on one entry of `p[0].u.buffer.data`. -/
def delsys_switch (mode_mask sys : Nat) : Nat :=
  if sys = SYS_DVBS then mode_mask ||| 1
  else if sys = SYS_DVBS2 then mode_mask ||| 2
  else if sys = SYS_DVBC_ANNEX_A then mode_mask ||| 4
  else if sys = SYS_DVBT then mode_mask ||| 8
  else if sys = SYS_DVBT2 then mode_mask ||| 16
  else mode_mask

/-- The loop `for (; i < p[0].u.buffer.len; ++i)` over the reported systems. -/
def delsys_mask : Nat → List Nat → Nat
  | mode_mask, [] => mode_mask
  | mode_mask, sys :: rest => delsys_mask (delsys_switch mode_mask sys) rest

/-- The two statements `if (mode_mask & 2) mode_mask &= ~1;` and
`if (mode_mask & 16) mode_mask &= ~8;`. -/
def suppress_legacy (mode_mask : Nat) : Nat :=
  let m1 := if mode_mask &&& 2 ≠ 0 then mask_clear mode_mask 1 else mode_mask
  if m1 &&& 16 ≠ 0 then mask_clear m1 8 else m1

/-- The variables of the `while (mode_mask && num_modes < 3)` loop; `modes`
is `char modes[3][32]`. -/
structure ModeLoop where
  mode_mask : Nat
  num_modes : Nat
  modes : List CString
  deriving DecidableEq

/-- One test of the loop condition followed, when it holds, by the body. -/
def modes_step (l : ModeLoop) : ModeLoop :=
  if l.mode_mask ≠ 0 ∧ l.num_modes < 3 then
    if l.mode_mask &&& 1 ≠ 0 then
      { mode_mask := mask_clear l.mode_mask 1, num_modes := l.num_modes + 1,
        modes := l.modes.set l.num_modes "DVB-S".toList }
    else if l.mode_mask &&& 2 ≠ 0 then
      { mode_mask := mask_clear l.mode_mask 2, num_modes := l.num_modes + 1,
        modes := l.modes.set l.num_modes "DVB-S2".toList }
    else if l.mode_mask &&& 4 ≠ 0 then
      { mode_mask := mask_clear l.mode_mask 4, num_modes := l.num_modes + 1,
        modes := l.modes.set l.num_modes "DVB-C".toList }
    else if l.mode_mask &&& 8 ≠ 0 then
      { mode_mask := mask_clear l.mode_mask 8, num_modes := l.num_modes + 1,
        modes := l.modes.set l.num_modes "DVB-T".toList }
    else if l.mode_mask &&& 16 ≠ 0 then
      { mode_mask := mask_clear l.mode_mask 16, num_modes := l.num_modes + 1,
        modes := l.modes.set l.num_modes "DVB-T2".toList }
    else { l with num_modes := l.num_modes + 1 }
  else l

/-- The `while` loop: `num_modes` grows by one in every round and the loop
needs `num_modes < 3`, so three rounds from `num_modes = 0` end it. -/
def modes_loop (l : ModeLoop) : ModeLoop := modes_step (modes_step (modes_step l))

/-- Lines 426-472: the variables after the `while` loop, from the systems the
tuner reports.  `modes` starts as three empty strings (`memset`). -/
def capability_reduction (reported : List Nat) : ModeLoop :=
  modes_loop { mode_mask := suppress_legacy (delsys_mask 0 reported), num_modes := 0,
               modes := [[], [], []] }

/-- The reduced mode list: the first `num_modes` entries of `modes`. -/
def reduced_modes (reported : List Nat) : List CString :=
  (capability_reduction reported).modes.take (capability_reduction reported).num_modes

/-- `sprintf(frontend_filename, "/dev/dvb/adapter%d/frontend0", idx)`. -/
def frontend_filename (idx : Nat) : CString :=
  "/dev/dvb/adapter".toList ++ (Nat.repr idx).toList ++ "/frontend0".toList

/-- The code after the label `error:` of `init_adapter`. -/
def init_adapter_error (trace : List Event) (adapter : vtuner_adapter) :
    Int × vtuner_adapter × List Event :=
  let trace1 := if adapter.vtuner ≥ 0 then trace ++ [Event.libc_close adapter.vtuner] else trace
  let a1 := if adapter.vtuner ≥ 0 then { adapter with vtuner := -1 } else adapter
  let trace2 := if a1.demux ≥ 0 then trace1 ++ [Event.libc_close a1.demux] else trace1
  let a2 := if a1.demux ≥ 0 then { a1 with demux := -1 } else a1
  let trace3 := if a2.frontend ≥ 0 then trace2 ++ [Event.libc_close a2.frontend] else trace2
  let a3 := if a2.frontend ≥ 0 then { a2 with frontend := -1 } else a2
  (-1, a3, trace3)

/-- Lines 492-501 of `init_adapter`: the way to `return 0`. -/
def init_adapter_finish (trace : List Event) (adapter : vtuner_adapter) :
    Int × vtuner_adapter × List Event :=
  (0,
   { adapter with pidlist := ⟨List.replicate 36 PID_UNUSED, List.length_replicate _ _⟩,
                  frontend := -1 },
   trace ++ [Event.ioctl adapter.vtuner (Ioctl.VTUNER_SET_HAS_OUTPUTS "no".toList),
             Event.malloc BUFFER_SIZE,
             Event.libc_close adapter.frontend])

/-- The function `init_adapter`, on the entry `adapters[id]`: the value it
returns, the entry and the events afterwards. -/
def init_adapter (env : Env) (trace : List Event) (entry : vtuner_adapter) :
    Int × vtuner_adapter × List Event :=
  let a0 := { entry with eventthread := 0, pumpthread := 0, frontend := -1, demux := -1 }
  let fd := (env.libc_open trace (frontend_filename a0.idx) O_RDWR none).1
  let trace1 := trace ++ [Event.libc_open (frontend_filename a0.idx) O_RDWR none]
  let adapter := { a0 with frontend := fd }
  if fd < 0 then init_adapter_error trace1 adapter
  else
    let trace2 := trace1 ++ [Event.ioctl adapter.vtuner (Ioctl.VTUNER_SET_NAME adapter.name)]
    let props := env.fe_get_property trace2 adapter.frontend
    let trace3 := trace2 ++ [Event.ioctl adapter.frontend Ioctl.FE_GET_PROPERTY]
    if props.1 ≥ 0 then
      let l := capability_reduction props.2
      if l.num_modes = 0 then init_adapter_error trace3 adapter
      else if l.num_modes > 1 then
        init_adapter_finish
          (trace3 ++ [Event.ioctl adapter.vtuner (Ioctl.VTUNER_SET_NUM_MODES l.num_modes),
                      Event.ioctl adapter.vtuner (Ioctl.VTUNER_SET_MODES l.modes)]) adapter
      else
        init_adapter_finish
          (trace3 ++ [Event.ioctl adapter.vtuner (Ioctl.VTUNER_SET_TYPE l.modes)]) adapter
    else init_adapter_finish trace3 adapter

/-- The reduction as the specification words it: the recognised standards in
the priority order DVB-S, DVB-S2, DVB-C, DVB-T, DVB-T2, each listed when the
tuner reports it, DVB-S dropped when DVB-S2 is reported and DVB-T dropped when
DVB-T2 is reported. -/
def spec_mode_list (reported : List Nat) : List CString :=
  (if SYS_DVBS ∈ reported ∧ SYS_DVBS2 ∉ reported then ["DVB-S".toList] else [])
  ++ (if SYS_DVBS2 ∈ reported then ["DVB-S2".toList] else [])
  ++ (if SYS_DVBC_ANNEX_A ∈ reported then ["DVB-C".toList] else [])
  ++ (if SYS_DVBT ∈ reported ∧ SYS_DVBT2 ∉ reported then ["DVB-T".toList] else [])
  ++ (if SYS_DVBT2 ∈ reported then ["DVB-T2".toList] else [])

/-! ## The globals -/

/-- The globals `main_adapter_idx`, `adapters` and `assigned_adapters`, with
`errno` and the calls made so far. -/
structure State where
  main_adapter_idx : Nat
  assigned_adapters : Nat
  adapters : List vtuner_adapter
  errno : Int
  trace : List Event
  deriving DecidableEq

/-- The assignment `adapters[i] = entry`. -/
def State.setAdapter (s : State) (i : Nat) (entry : vtuner_adapter) : State :=
  { s with adapters := s.adapters.set i entry }

/-- The state after `printf`, `perror` or another call that may change
`errno` and nothing else of the state. -/
def State.stdio (env : Env) (s : State) : State :=
  { s with errno := env.errno_after s.trace s.errno }

/-- The character `'0' + n`. -/
def digit (n : Nat) : Char := Char.ofNat (48 + n)

/-! ## `scan_adapters`: binding to virtual tuners (lines 151-177) -/

/-- The array `tmp` of line 154 after `tmp[16] = '0' + i`. -/
def vtuner_filename (i : Nat) : CString := "/dev/misc/vtuner0".toList.set 16 (digit i)

/-- The loop `for (vtuner = 0; vtuner < 8; ++vtuner)` for the adapter at
position `i`; `rounds` is the number of values of `vtuner` still to come.
Returns the state and what the loop added to `created`.  The `printf` of line
167 may change `errno`. -/
def scan_vtuners (env : Env) (frontends_before i : Nat) (entry : vtuner_adapter) :
    Nat → State → State × Nat
  | 0, s => (s, 0)
  | rounds + 1, s =>
    let r := env.libc_open s.trace (vtuner_filename i) O_RDWR none
    let entry1 := { (s.adapters.getD i entry) with vtuner := r.1 }
    let s1 : State :=
      { s with trace := s.trace ++ [Event.libc_open (vtuner_filename i) O_RDWR none],
               errno := if r.1 < 0 then r.2 else s.errno,
               adapters := s.adapters.set i entry1 }
    if r.1 < 0 then
      if s1.errno = -EBUSY then scan_vtuners env frontends_before i entry rounds s1
      else (s1, 0)
    else
      ((s1.setAdapter i
          { entry1 with vtuneridx := i, vtunerfeidx := frontends_before + i }).stdio env, 1)

/-- The loop `for (i = 0; i < found; i++)` from position `i` on, with
`remaining = found - i`; returns the state and what was added to `created`.
The `printf` of line 174, run when the adapter stayed unbound, may change
`errno`. -/
def scan_bind (env : Env) (frontends_before : Nat) : Nat → Nat → State → State × Nat
  | 0, _, s => (s, 0)
  | remaining + 1, i, s =>
    match s.adapters[i]? with
    | none => (s, 0)
    | some entry =>
      let r := scan_vtuners env frontends_before i entry 8 s
      let s1 := if (r.1.adapters.getD i entry).vtuner < 0 then r.1.stdio env else r.1
      let rest := scan_bind env frontends_before remaining (i + 1) s1
      (rest.1, r.2 + rest.2)

/-- Lines 151-177 of `scan_adapters`.  The sysfs enumeration of lines 104-149
is given by its results: `frontends_before`, the frontend count of the main
adapter, and `found`, the number of labeled adapters, whose `name` and `idx`
are in `adapters[0 .. found)`.  Returns `created`. -/
def scan_adapters (env : Env) (frontends_before found : Nat) (s : State) : State × Nat :=
  scan_bind env frontends_before found 0 s

/-! ## `scan_usb_tuners` (lines 563-580) -/

/-- The loop `for (i = 0; i < assigned_adapters; i++)` that negotiates the
bound adapters, from position `i` on.  The `errno` the calls of `init_adapter`
leave is read from `env.errno_after`. -/
def scan_init (env : Env) : Nat → Nat → State → State
  | 0, _, s => s
  | remaining + 1, i, s =>
    match s.adapters[i]? with
    | none => s
    | some entry =>
      if entry.vtuner ≥ 0 then
        let r := init_adapter env s.trace entry
        let s1 : State :=
          ({ s with adapters := s.adapters.set i r.2.1, trace := r.2.2 } : State).stdio env
        if r.1 < 0 then
          scan_init env remaining (i + 1)
            { s1 with adapters := s1.adapters.set i { r.2.1 with vtuner := -1 },
                      trace := s1.trace ++ [Event.libc_close r.2.1.vtuner] }
        else scan_init env remaining (i + 1) s1
      else scan_init env remaining (i + 1) s

/-- Lines 563-580 of `scan_usb_tuners`, after the main adapter was chosen:
every `vtuner` handle is set to -1, `scan_adapters` binds the labeled
adapters, and `init_adapter` is run on the positions below
`assigned_adapters`. -/
def scan_usb_tuners (env : Env) (frontends_before found : Nat) (s : State) : State :=
  let s0 : State := { s with adapters := s.adapters.map (fun a => { a with vtuner := -1 }) }
  let r := scan_adapters env frontends_before found s0
  let s1 : State := { r.1 with assigned_adapters := r.2 }
  scan_init env s1.assigned_adapters 0 s1

/-! ## The hooks (lines 583-808) -/

/-- The test `!strncmp(a, b, n)` on two C strings. -/
def strncmp_eq (a b : CString) (n : Nat) : Bool := a.take n == b.take n

/-- The array `fe` of `check_usb_tuner_open` after `fe[16] = '0' +
main_adapter_idx` and `fe[26] = '0' + vtunerfeidx`. -/
def virtual_frontend (main_adapter_idx vtunerfeidx : Nat) : CString :=
  ("/dev/dvb/adapter0/frontend0".toList.set 16 (digit main_adapter_idx)).set 26
    (digit vtunerfeidx)

/-- The first position `i < assigned_adapters` with `adapters[i].vtuner >= 0`
and `!strcmp(path, fe)`, where the loop of `check_usb_tuner_open` stops. -/
def usb_tuner_open_slot (s : State) (path : CString) : Option Nat :=
  (List.range s.assigned_adapters).find? (fun i =>
    match s.adapters[i]? with
    | some a => decide (a.vtuner ≥ 0)
        && decide (path = virtual_frontend s.main_adapter_idx a.vtunerfeidx)
    | none => false)

/-- Lines 619-624 of `check_usb_tuner_open`, reached when `running` is clear
after the busy-wait: the control device is closed, `errno` is set to `ENOMEM`
and -3 is returned.  `pumpthread` is what `pthread_create` left and `demux`
what `data_task`, if it ran, left. -/
def attach_failed (s : State) (i : Nat) (a : vtuner_adapter) (fd : Int)
    (pumpthread : Nat) (demux : Int) : Int × State :=
  (-3, { s with trace := s.trace ++ [Event.libc_close fd],
                errno := ENOMEM,
                adapters := s.adapters.set i
                  { a with frontend := -1, running := 0, eventthread := 0,
                           pumpthread := pumpthread, demux := demux } })

/-- The function `check_usb_tuner_open`; `none` when it does not return.
The two threads are not run and their calls are not recorded: the handles
`eventthread` and `pumpthread` are 0 (null) or 1 (non-null).  Line 609 starts
`data_task` on `(void*)adapters+i`, the address `i` bytes into the table: for
slot 0 that is the slot's entry and `env.bridge_started` says how the
busy-wait of line 615 ends (`data_task` leaves `demux` at -1 when it clears
`running`); for a slot `i >= 1` it is not `&adapters[i]`, so nothing sets
`adapters[i].eventthread` or clears `adapters[i].running` and the busy-wait
never ends.  When `pthread_create` fails, line 612 clears `running`. -/
def check_usb_tuner_open (env : Env) (s : State) (path : CString) (flags : Int)
    (mode : Option Int) : Option (Int × State) :=
  match usb_tuner_open_slot s path with
  | none => some (-1, s)
  | some i =>
    match s.adapters[i]? with
    | none => some (-1, s)
    | some a =>
      let s0 := s.stdio env
      let r := env.libc_open s0.trace (frontend_filename a.idx) flags mode
      let s1 : State :=
        { s0 with trace := s0.trace ++ [Event.libc_open (frontend_filename a.idx) flags mode],
                  errno := if r.1 < 0 then r.2 else s0.errno,
                  adapters := s0.adapters.set i { a with frontend := r.1 } }
      if r.1 < 0 then some (r.1, s1.stdio env)
      else
        let s2 : State :=
          { s1 with trace := s1.trace ++ [Event.pthread_create_data_task i] }
        if env.pthread_create_ok s2.trace i then
          if i = 0 then
            match env.bridge_started s2.trace i with
            | some demux =>
              some (r.1, (s2.setAdapter i { a with frontend := r.1, running := 1,
                                                   eventthread := 1, pumpthread := 1,
                                                   demux := demux }).stdio env)
            | none => some (attach_failed s2 i a r.1 1 (-1))
          else none
        else some (attach_failed (s2.stdio env) i a r.1 0 a.demux)

/-- The function `check_access`: -1 when `p` agrees on its first 17
characters with the real frontend path of a bound adapter below
`assigned_adapters`, else 0. -/
def check_access (s : State) (p : CString) : Int :=
  if (s.adapters.take s.assigned_adapters).any (fun a =>
      decide (a.vtuner ≥ 0) && strncmp_eq p (frontend_filename a.idx) 17)
  then -1 else 0

/-- The first part of `HANDLE_PATH` (lines 724-744): the content of `tmp`
when `path` is set to it, `none` when `path` stays `NULL`.  `strncpy(tmp, in,
32)` leaves the first 32 characters of `in` in the 33-byte array. -/
def rewrite_path (s : State) (inp : CString) : Option CString :=
  if s.assigned_adapters ≠ 0 ∧ s.main_adapter_idx ≠ 0 then
    if strncmp_eq inp "/dev/dvb/adapter0/              ".toList 17 then
      some ((inp.take 32).set 16 (digit s.main_adapter_idx))
    else if strncmp_eq inp
        ("/dev/dvb/adapter0/              ".toList.set 16 (digit s.main_adapter_idx)) 17 then
      some ((inp.take 32).set 16 '0')
    else none
  else none

/-- The macro `HANDLE_PATH(in, err)`: `none` when it runs `errno = err;
return -1;`, else the value of `path`. -/
def HANDLE_PATH (s : State) (inp : CString) : Option CString :=
  match rewrite_path s inp with
  | none => some inp
  | some tmp => if s.assigned_adapters ≠ 0 ∧ check_access s tmp < 0 then none else some tmp

/-- The function `libusbtuner_open64`, with the libc pointers resolved;
`none` when it does not return. -/
def libusbtuner_open64 (env : Env) (s : State) (pathname : CString) (flags : Int)
    (mode : Option Int) : Option (Int × State) :=
  match HANDLE_PATH s pathname with
  | none => some (-1, { s with errno := EBUSY })
  | some path =>
    match check_usb_tuner_open env s path flags mode with
    | none => none
    | some r =>
      if r.1 = -1 then
        let o := env.libc_open64 r.2.trace path flags mode
        some (o.1, { r.2 with trace := r.2.trace ++ [Event.libc_open64 path flags mode],
                              errno := if o.1 < 0 then o.2 else r.2.errno })
      else some r

/-- The function `libusbtuner_open`, with the libc pointers resolved; `none`
when it does not return. -/
def libusbtuner_open (env : Env) (s : State) (pathname : CString) (flags : Int)
    (mode : Option Int) : Option (Int × State) :=
  match HANDLE_PATH s pathname with
  | none => some (-1, { s with errno := EBUSY })
  | some path =>
    match check_usb_tuner_open env s path flags mode with
    | none => none
    | some r =>
      if r.1 < 0 then
        let o := env.libc_open r.2.trace path flags mode
        some (o.1, { r.2 with trace := r.2.trace ++ [Event.libc_open path flags mode],
                              errno := if o.1 < 0 then o.2 else r.2.errno })
      else some r

/-- The function `libusbtuner_stat`, with the libc pointers resolved. -/
def libusbtuner_stat (env : Env) (s : State) (ver : Int) (p : CString) : Int × State :=
  match HANDLE_PATH s p with
  | none => (-1, { s with errno := EACCES })
  | some path =>
    let o := env.libc_stat s.trace ver path
    (o.1, { s with trace := s.trace ++ [Event.libc_stat ver path],
                   errno := if o.1 < 0 then o.2 else s.errno })

/-- The function `libusbtuner_stat64`, with the libc pointers resolved. -/
def libusbtuner_stat64 (env : Env) (s : State) (ver : Int) (p : CString) : Int × State :=
  match HANDLE_PATH s p with
  | none => (-1, { s with errno := EACCES })
  | some path =>
    let o := env.libc_stat64 s.trace ver path
    (o.1, { s with trace := s.trace ++ [Event.libc_stat64 ver path],
                   errno := if o.1 < 0 then o.2 else s.errno })

/-- A `pidlist` after `memset(adapter->pidlist, 0xff, ...)`. -/
def noPids : PidList := ⟨List.replicate 36 PID_UNUSED, List.length_replicate _ _⟩

/-- An entry of the zero-initialised table as the sysfs enumeration and line
564 leave it: `idx` and `name` set, `vtuner` -1, every other field 0. -/
def labeledAdapter (idx : Nat) (name : CString) : vtuner_adapter :=
  { idx := idx, name := name, frontend := 0, demux := 0, vtuner := -1, vtuneridx := 0,
    running := 0, vtunerfeidx := 0, eventthread := 0, pumpthread := 0,
    pidlist := ⟨List.replicate 36 0, List.length_replicate _ _⟩ }

/-- The entry at position 0 once it is bound to the virtual tuner handle
`vtuner` and `init_adapter` has returned 0: control and demultiplexer handles
-1, no thread, no active identifier. -/
def boundAdapter (idx : Nat) (name : CString) (vtuner : Int) (vtunerfeidx : Nat) :
    vtuner_adapter :=
  { idx := idx, name := name, frontend := -1, demux := -1, vtuner := vtuner, vtuneridx := 0,
    running := 0, vtunerfeidx := vtunerfeidx, eventthread := 0, pumpthread := 0,
    pidlist := noPids }

/-- A world in which opening a path of `busy` fails with `EBUSY`, every other
open returns a fresh handle, `close` and `stat` succeed, the tuner reports the
systems `reported`, `pthread_create` succeeds, the bridge threads start or not
as `started` says, and `printf` and `perror` leave `errno` alone. -/
def testEnv (busy : List CString) (reported : List Nat) (started : Bool) : Env :=
  { libc_open := fun tr path _ _ => if path ∈ busy then (-1, EBUSY) else (3 + tr.length, 0),
    libc_open64 := fun tr path _ _ => if path ∈ busy then (-1, EBUSY) else (3 + tr.length, 0),
    libc_close := fun _ _ => (0, 0),
    libc_stat := fun _ _ _ => (0, 0),
    libc_stat64 := fun _ _ _ => (0, 0),
    fe_get_property := fun _ _ => (0, reported),
    pthread_create_ok := fun _ _ => true,
    bridge_started := fun tr _ => if started then some (3 + tr.length) else none,
    errno_after := fun _ e => e }

/-- The globals with the given main adapter, table and binding count. -/
def globals (main_adapter_idx assigned_adapters : Nat) (adapters : List vtuner_adapter) :
    State :=
  { main_adapter_idx := main_adapter_idx, assigned_adapters := assigned_adapters,
    adapters := adapters, errno := 0, trace := [] }

/-- The value of `mode_mask` with the given bits set: 1 for DVB-S, 2 for
DVB-S2, 4 for DVB-C, 8 for DVB-T, 16 for DVB-T2. -/
def maskOf (s s2 c t t2 : Bool) : Nat :=
  (if s then 1 else 0) ||| (if s2 then 2 else 0) ||| (if c then 4 else 0)
    ||| (if t then 8 else 0) ||| (if t2 then 16 else 0)

/-! ## Theorems -/

/-! ### The `MSG_PIDLIST` handler -/

theorem pid_found_iff (pid : Nat) (l : List Nat) : pid_found pid l = true ↔ pid ∈ l := by
  induction l with
  | nil => simp [pid_found]
  | cons q rest ih =>
    by_cases h : pid = q
    · simp [pid_found, h]
    · simp [pid_found, h, ih]

theorem remove_old_pids_length (demux : Int) (message olds : List Nat) :
    (remove_old_pids demux message olds).length
      = (olds.filter (fun p => p ≠ PID_UNUSED ∧ p ∉ message)).length := by
  induction olds with
  | nil => simp [remove_old_pids]
  | cons p olds ih =>
    by_cases h1 : p = PID_UNUSED
    · simp [remove_old_pids, h1, ih]
    · by_cases h2 : p ∈ message
      · simp [remove_old_pids, h1, h2, pid_found_iff, ih]
      · simp [remove_old_pids, h1, h2, pid_found_iff, ih]

theorem add_new_pids_length (demux : Int) (current news : List Nat) :
    (add_new_pids demux current news).length
      = (news.filter (fun p => p ≠ PID_UNUSED ∧ p ∉ current)).length := by
  induction news with
  | nil => simp [add_new_pids]
  | cons p news ih =>
    by_cases h1 : p = PID_UNUSED
    · simp [add_new_pids, h1, ih]
    · by_cases h2 : p ∈ current
      · simp [add_new_pids, h1, h2, pid_found_iff, ih]
      · simp [add_new_pids, h1, h2, pid_found_iff, ih]

theorem remove_old_pids_commands (demux : Int) (message olds : List Nat) :
    ∀ e ∈ remove_old_pids demux message olds, e.isPidCommand = true := by
  induction olds with
  | nil => simp [remove_old_pids]
  | cons p olds ih =>
    intro e he
    unfold remove_old_pids at he
    split_ifs at he
    · exact ih e he
    · rcases List.mem_cons.mp he with rfl | h
      · rfl
      · exact ih e h
    · exact ih e he

theorem add_new_pids_commands (demux : Int) (current news : List Nat) :
    ∀ e ∈ add_new_pids demux current news, e.isPidCommand = true := by
  induction news with
  | nil => simp [add_new_pids]
  | cons p news ih =>
    intro e he
    unfold add_new_pids at he
    split_ifs at he
    · exact ih e he
    · rcases List.mem_cons.mp he with rfl | h
      · rfl
      · exact ih e h
    · exact ih e he

/-- Entries of a duplicate-free list that are used and absent from `other`
are as many as the difference of the two identifier sets. -/
theorem filter_absent_card (l other : List Nat)
    (hl : (l.filter (fun p => p ≠ PID_UNUSED)).Nodup) :
    (l.filter (fun p => p ≠ PID_UNUSED ∧ p ∉ other)).length
      = ((l.filter (fun p => p ≠ PID_UNUSED)).toFinset
          \ (other.filter (fun p => p ≠ PID_UNUSED)).toFinset).card := by
  have h1 : l.filter (fun p => p ≠ PID_UNUSED ∧ p ∉ other)
      = (l.filter (fun p => p ≠ PID_UNUSED)).filter (fun p => p ∉ other) := by
    rw [List.filter_filter]
    congr 1
    funext p
    simp [Bool.and_comm]
  have h2 : ((l.filter (fun p => p ≠ PID_UNUSED)).filter (fun p => p ∉ other)).Nodup :=
    hl.filter _
  rw [h1, ← List.toFinset_card_of_nodup h2]
  congr 1
  ext p
  simp only [List.mem_toFinset, List.mem_filter, Finset.mem_sdiff, decide_eq_true_eq]
  tauto

theorem remove_old_pids_same (demux : Int) (message : List Nat) :
    ∀ olds : List Nat, (∀ p ∈ olds, p ∈ message) → remove_old_pids demux message olds = [] := by
  intro olds
  induction olds with
  | nil => intro _; rfl
  | cons p olds ih =>
    intro h
    have hp : pid_found p message = true := (pid_found_iff p message).mpr (h p (by simp))
    have hrest := ih (fun q hq => h q (List.mem_cons_of_mem _ hq))
    simp [remove_old_pids, hp, hrest]

theorem add_new_pids_same (demux : Int) (current : List Nat) :
    ∀ news : List Nat, (∀ p ∈ news, p ∈ current) → add_new_pids demux current news = [] := by
  intro news
  induction news with
  | nil => intro _; rfl
  | cons p news ih =>
    intro h
    have hp : pid_found p current = true := (pid_found_iff p current).mpr (h p (by simp))
    have hrest := ih (fun q hq => h q (List.mem_cons_of_mem _ hq))
    simp [add_new_pids, hp, hrest]

/-- C1, as the code has it.  For every current list and every message such
that neither the current list nor the message holds an identifier other than
`0xffff` twice, the `MSG_PIDLIST` handler sends as many commands as the
symmetric difference of the two identifier sets has elements.  And for every
current list and every message, with or without repeated identifiers, every
command it sends is a `DMX_REMOVE_PID` or a `DMX_ADD_PID`, and the slot's list
afterwards is the message's list, so its identifier set is the message's
set. -/
theorem msg_pidlist_symmetric_difference (adapter : vtuner_adapter) (message : PidList) :
    (pidsDistinct adapter.pidlist → pidsDistinct message →
        (msg_pidlist adapter message).2.countP Event.isPidCommand
          = (symmDiff (pidSet adapter.pidlist) (pidSet message)).card
        ∧ (msg_pidlist adapter message).2.length
          = (symmDiff (pidSet adapter.pidlist) (pidSet message)).card)
      ∧ (∀ e ∈ (msg_pidlist adapter message).2, e.isPidCommand = true)
      ∧ (msg_pidlist adapter message).1.pidlist = message
      ∧ pidSet (msg_pidlist adapter message).1.pidlist = pidSet message := by
  have hall : ∀ e ∈ (msg_pidlist adapter message).2, e.isPidCommand = true := by
    intro e he
    simp only [msg_pidlist, List.mem_append] at he
    rcases he with h | h
    · exact remove_old_pids_commands _ _ _ e h
    · exact add_new_pids_commands _ _ _ e h
  refine ⟨?_, hall, rfl, rfl⟩
  intro hold hnew
  have hlen : (msg_pidlist adapter message).2.length
      = (symmDiff (pidSet adapter.pidlist) (pidSet message)).card := by
    have hdisj : Disjoint (pidSet adapter.pidlist \ pidSet message)
        (pidSet message \ pidSet adapter.pidlist) := disjoint_sdiff_sdiff
    rw [symmDiff_def, Finset.sup_eq_union, Finset.card_union_of_disjoint hdisj]
    simp only [msg_pidlist, List.length_append, remove_old_pids_length, add_new_pids_length]
    rw [filter_absent_card _ _ hold, filter_absent_card _ _ hnew]
    rfl
  refine ⟨?_, hlen⟩
  rw [List.countP_eq_length.mpr hall, hlen]

/-- C1 at a concrete input: from the identifiers {1, 2} a message listing
{2, 3} makes the handler send two commands. -/
theorem msg_pidlist_symmetric_difference_witness :
    (msg_pidlist (streamingAdapter (pidListOf [1, 2] (by decide)))
        (pidListOf [2, 3] (by decide))).2
      = [Event.ioctl 8 (Ioctl.DMX_REMOVE_PID 1), Event.ioctl 8 (Ioctl.DMX_ADD_PID 3)]
    ∧ (msg_pidlist (streamingAdapter (pidListOf [1, 2] (by decide)))
        (pidListOf [2, 3] (by decide))).2.countP Event.isPidCommand
        = (symmDiff (pidSet (streamingAdapter (pidListOf [1, 2] (by decide))).pidlist)
            (pidSet (pidListOf [2, 3] (by decide)))).card :=
  ⟨by decide,
   ((msg_pidlist_symmetric_difference (streamingAdapter (pidListOf [1, 2] (by decide)))
      (pidListOf [2, 3] (by decide))).1 (by decide) (by decide)).1⟩

/-- C1 as stated fails when a list holds an identifier twice.  From an empty
list, the message (5, 5, 0xffff, ...) makes the handler send two `DMX_ADD_PID`
commands, while the symmetric difference of the two sets is {5}, of size 1;
and from the current list (7, 7, 0xffff, ...) an empty message makes it send
two `DMX_REMOVE_PID` commands, while the symmetric difference is {7}. -/
theorem msg_pidlist_duplicate_counterexample :
    (msg_pidlist (streamingAdapter (pidListOf [] (by decide)))
        (pidListOf [5, 5] (by decide))).2
      = [Event.ioctl 8 (Ioctl.DMX_ADD_PID 5), Event.ioctl 8 (Ioctl.DMX_ADD_PID 5)]
    ∧ (msg_pidlist (streamingAdapter (pidListOf [] (by decide)))
        (pidListOf [5, 5] (by decide))).2.countP Event.isPidCommand = 2
    ∧ (symmDiff (pidSet (streamingAdapter (pidListOf [] (by decide))).pidlist)
        (pidSet (pidListOf [5, 5] (by decide)))).card = 1
    ∧ (msg_pidlist (streamingAdapter (pidListOf [7, 7] (by decide)))
        (pidListOf [] (by decide))).2
      = [Event.ioctl 8 (Ioctl.DMX_REMOVE_PID 7), Event.ioctl 8 (Ioctl.DMX_REMOVE_PID 7)]
    ∧ (symmDiff (pidSet (streamingAdapter (pidListOf [7, 7] (by decide))).pidlist)
        (pidSet (pidListOf [] (by decide)))).card = 1 := by
  refine ⟨by decide, by decide, by decide, by decide, by decide⟩

/-- C2: whatever the slot's list and the message, handling the message and
then the same message again sends no command at all the second time (no
`DMX_ADD_PID`, no `DMX_REMOVE_PID`) and leaves the slot's list as the first
handling set it. -/
theorem msg_pidlist_idempotent (adapter : vtuner_adapter) (message : PidList) :
    (msg_pidlist (msg_pidlist adapter message).1 message).2 = []
      ∧ (msg_pidlist (msg_pidlist adapter message).1 message).1
          = (msg_pidlist adapter message).1
      ∧ (msg_pidlist (msg_pidlist adapter message).1 message).1.pidlist
          = (msg_pidlist adapter message).1.pidlist := by
  refine ⟨?_, rfl, rfl⟩
  simp only [msg_pidlist]
  rw [remove_old_pids_same _ _ _ (fun _ h => h), add_new_pids_same _ _ _ (fun _ h => h)]
  rfl

/-! ### Capability reduction in `init_adapter` -/

theorem delsys_switch_maskOf (s s2 c t t2 : Bool) (sys : Nat) :
    delsys_switch (maskOf s s2 c t t2) sys
      = maskOf (s || decide (sys = SYS_DVBS)) (s2 || decide (sys = SYS_DVBS2))
          (c || decide (sys = SYS_DVBC_ANNEX_A)) (t || decide (sys = SYS_DVBT))
          (t2 || decide (sys = SYS_DVBT2)) := by
  unfold delsys_switch
  split_ifs with h1 h2 h3 h4 h5
  · subst h1; revert s s2 c t t2; decide
  · subst h2; revert s s2 c t t2; decide
  · subst h3; revert s s2 c t t2; decide
  · subst h4; revert s s2 c t t2; decide
  · subst h5; revert s s2 c t t2; decide
  · simp [h1, h2, h3, h4, h5]

theorem delsys_mask_maskOf (reported : List Nat) : ∀ s s2 c t t2 : Bool,
    delsys_mask (maskOf s s2 c t t2) reported
      = maskOf (s || decide (SYS_DVBS ∈ reported)) (s2 || decide (SYS_DVBS2 ∈ reported))
          (c || decide (SYS_DVBC_ANNEX_A ∈ reported)) (t || decide (SYS_DVBT ∈ reported))
          (t2 || decide (SYS_DVBT2 ∈ reported)) := by
  induction reported with
  | nil => intro s s2 c t t2; simp [delsys_mask]
  | cons sys rest ih =>
    intro s s2 c t t2
    simp only [delsys_mask, delsys_switch_maskOf, ih, List.mem_cons, Bool.decide_or,
      Bool.or_assoc]
    have e : ∀ a : Nat, decide (a = sys) = decide (sys = a) := by
      intro a; simp only [eq_comm]
    simp only [e]

theorem delsys_mask_zero (reported : List Nat) :
    delsys_mask 0 reported
      = maskOf (decide (SYS_DVBS ∈ reported)) (decide (SYS_DVBS2 ∈ reported))
          (decide (SYS_DVBC_ANNEX_A ∈ reported)) (decide (SYS_DVBT ∈ reported))
          (decide (SYS_DVBT2 ∈ reported)) := by
  have h := delsys_mask_maskOf reported false false false false false
  simpa [maskOf] using h

theorem modes_step_fixed_or_counted (l : ModeLoop) :
    modes_step l = l ∨ (modes_step l).num_modes = l.num_modes + 1 := by
  unfold modes_step
  split_ifs <;> simp

theorem modes_step_full (l : ModeLoop) (h : 3 ≤ l.num_modes) : modes_step l = l := by
  unfold modes_step
  rw [if_neg]
  omega

/-- The `while` loop has ended after three rounds: a fourth test of its
condition fails, whatever the mask. -/
theorem modes_loop_exits (l : ModeLoop) (h : l.num_modes = 0) :
    modes_step (modes_loop l) = modes_loop l := by
  unfold modes_loop
  rcases modes_step_fixed_or_counted l with h1 | h1
  · rw [h1, h1, h1]; exact h1
  · rcases modes_step_fixed_or_counted (modes_step l) with h2 | h2
    · rw [h2, h2]; exact h2
    · rcases modes_step_fixed_or_counted (modes_step (modes_step l)) with h3 | h3
      · rw [h3]; exact h3
      · exact modes_step_full _ (by omega)

/-- The loop's outcome for each of the 32 masks the `switch` can build. -/
theorem modes_loop_maskOf : ∀ s s2 c t t2 : Bool,
    (modes_loop { mode_mask := suppress_legacy (maskOf s s2 c t t2), num_modes := 0,
                  modes := [[], [], []] }).mode_mask = 0
    ∧ (modes_loop { mode_mask := suppress_legacy (maskOf s s2 c t t2), num_modes := 0,
                    modes := [[], [], []] }).modes.take
        (modes_loop { mode_mask := suppress_legacy (maskOf s s2 c t t2), num_modes := 0,
                      modes := [[], [], []] }).num_modes
      = (if s = true ∧ s2 = false then ["DVB-S".toList] else [])
        ++ (if s2 = true then ["DVB-S2".toList] else [])
        ++ (if c = true then ["DVB-C".toList] else [])
        ++ (if t = true ∧ t2 = false then ["DVB-T".toList] else [])
        ++ (if t2 = true then ["DVB-T2".toList] else []) := by
  decide

theorem reduced_modes_eq_spec (reported : List Nat) :
    (capability_reduction reported).mode_mask = 0
      ∧ reduced_modes reported = spec_mode_list reported := by
  have h := modes_loop_maskOf (decide (SYS_DVBS ∈ reported)) (decide (SYS_DVBS2 ∈ reported))
    (decide (SYS_DVBC_ANNEX_A ∈ reported)) (decide (SYS_DVBT ∈ reported))
    (decide (SYS_DVBT2 ∈ reported))
  rw [← delsys_mask_zero] at h
  refine ⟨h.1, ?_⟩
  unfold reduced_modes capability_reduction spec_mode_list
  rw [h.2]
  simp only [decide_eq_true_eq, decide_eq_false_iff_not]

theorem spec_mode_list_props (reported : List Nat) :
    (spec_mode_list reported).length ≤ 3 ∧ (spec_mode_list reported).Nodup := by
  unfold spec_mode_list
  by_cases a : SYS_DVBS ∈ reported <;> by_cases b : SYS_DVBS2 ∈ reported <;>
    by_cases c : SYS_DVBC_ANNEX_A ∈ reported <;> by_cases d : SYS_DVBT ∈ reported <;>
    by_cases e : SYS_DVBT2 ∈ reported <;> simp only [a, b, c, d, e] <;> decide

/-- C3: the mode list `init_adapter` builds from the delivery systems a tuner
reports is, for every reported list: the recognised standards in the order
DVB-S, DVB-S2, DVB-C, DVB-T, DVB-T2, with DVB-S left out when DVB-S2 is
reported and DVB-T left out when DVB-T2 is reported; it has no repetition and
at most 3 entries; the loop ends with an empty mask, so the cap of 3 drops no
standard; two reported lists with the same members give the same list; and
DVB-S, DVB-S2, DVB-C reduce to exactly DVB-S2, DVB-C. -/
theorem capability_reduction_deterministic (reported : List Nat) :
    reduced_modes reported = spec_mode_list reported
      ∧ ("DVB-S".toList ∈ reduced_modes reported ↔ SYS_DVBS ∈ reported ∧ SYS_DVBS2 ∉ reported)
      ∧ ("DVB-T".toList ∈ reduced_modes reported ↔ SYS_DVBT ∈ reported ∧ SYS_DVBT2 ∉ reported)
      ∧ (reduced_modes reported).Nodup
      ∧ (reduced_modes reported).length ≤ 3
      ∧ (capability_reduction reported).mode_mask = 0
      ∧ (∀ other : List Nat, (∀ sys, sys ∈ other ↔ sys ∈ reported) →
          reduced_modes other = reduced_modes reported)
      ∧ ((∀ sys, sys ∈ reported ↔ sys = SYS_DVBS ∨ sys = SYS_DVBS2 ∨ sys = SYS_DVBC_ANNEX_A) →
          reduced_modes reported = ["DVB-S2".toList, "DVB-C".toList])
      ∧ reduced_modes [SYS_DVBS, SYS_DVBS2, SYS_DVBC_ANNEX_A]
          = ["DVB-S2".toList, "DVB-C".toList] := by
  have hspec := (reduced_modes_eq_spec reported).2
  have hprops := spec_mode_list_props reported
  refine ⟨hspec, ?_, ?_, hspec ▸ hprops.2, hspec ▸ hprops.1, (reduced_modes_eq_spec reported).1,
    ?_, ?_, by decide⟩
  · rw [hspec]; unfold spec_mode_list
    by_cases a : SYS_DVBS ∈ reported <;> by_cases b : SYS_DVBS2 ∈ reported <;>
      by_cases c : SYS_DVBC_ANNEX_A ∈ reported <;> by_cases d : SYS_DVBT ∈ reported <;>
      by_cases e : SYS_DVBT2 ∈ reported <;> simp only [a, b, c, d, e] <;> decide
  · rw [hspec]; unfold spec_mode_list
    by_cases a : SYS_DVBS ∈ reported <;> by_cases b : SYS_DVBS2 ∈ reported <;>
      by_cases c : SYS_DVBC_ANNEX_A ∈ reported <;> by_cases d : SYS_DVBT ∈ reported <;>
      by_cases e : SYS_DVBT2 ∈ reported <;> simp only [a, b, c, d, e] <;> decide
  · intro other h
    rw [hspec, (reduced_modes_eq_spec other).2]
    unfold spec_mode_list
    simp only [h]
  · intro h
    rw [hspec]
    unfold spec_mode_list
    have a : SYS_DVBS ∈ reported := (h _).mpr (Or.inl rfl)
    have b : SYS_DVBS2 ∈ reported := (h _).mpr (Or.inr (Or.inl rfl))
    have c : SYS_DVBC_ANNEX_A ∈ reported := (h _).mpr (Or.inr (Or.inr rfl))
    have d : SYS_DVBT ∉ reported := fun hd => by
      have := (h _).mp hd; revert this; decide
    have e : SYS_DVBT2 ∉ reported := fun hd => by
      have := (h _).mp hd; revert this; decide
    simp only [a, b, c, d, e]
    decide

/-! ### `scan_adapters` and `scan_usb_tuners` -/

/-- C8 at a failing input: one labeled adapter, `/dev/misc/vtuner0` busy and
every other virtual tuner free.  The code opens `/dev/misc/vtuner0` once,
leaves the loop (`errno` is `EBUSY`, never `-EBUSY`), binds nothing and
returns 0; the virtual tuners 1 to 7 are never tried. -/
theorem scan_adapters_busy_not_skipped :
    (scan_adapters (testEnv ["/dev/misc/vtuner0".toList] [] true) 1 1
        (globals 0 0 [labeledAdapter 1 "TunerX".toList])).2 = 0
    ∧ (scan_adapters (testEnv ["/dev/misc/vtuner0".toList] [] true) 1 1
        (globals 0 0 [labeledAdapter 1 "TunerX".toList])).1.trace
        = [Event.libc_open "/dev/misc/vtuner0".toList O_RDWR none]
    ∧ (scan_adapters (testEnv ["/dev/misc/vtuner0".toList] [] true) 1 1
        (globals 0 0 [labeledAdapter 1 "TunerX".toList])).1.adapters
        = [labeledAdapter 1 "TunerX".toList]
    ∧ (scan_adapters (testEnv ["/dev/misc/vtuner0".toList] [] true) 1 1
        (globals 0 0 [labeledAdapter 1 "TunerX".toList])).1.errno = EBUSY := by
  decide

/-- C10 at a failing input: two labeled adapters, `/dev/misc/vtuner0` cannot
be opened and `/dev/misc/vtuner1` can.  After `scan_usb_tuners` the adapter
at position 1 holds a virtual tuner handle (4) while `assigned_adapters` is 1:
it was never negotiated, and its virtual frontend path matches no slot in
`check_usb_tuner_open`. -/
theorem scan_usb_tuners_bound_beyond_count :
    (scan_usb_tuners (testEnv ["/dev/misc/vtuner0".toList] [SYS_DVBC_ANNEX_A] true) 1 2
        (globals 0 0 [labeledAdapter 1 "TunerX".toList, labeledAdapter 2 "TunerY".toList])
      ).assigned_adapters = 1
    ∧ (scan_usb_tuners (testEnv ["/dev/misc/vtuner0".toList] [SYS_DVBC_ANNEX_A] true) 1 2
        (globals 0 0 [labeledAdapter 1 "TunerX".toList, labeledAdapter 2 "TunerY".toList])
      ).adapters
        = [labeledAdapter 1 "TunerX".toList,
           { labeledAdapter 2 "TunerY".toList with vtuner := 4, vtuneridx := 1,
                                                   vtunerfeidx := 2 }]
    ∧ (scan_usb_tuners (testEnv ["/dev/misc/vtuner0".toList] [SYS_DVBC_ANNEX_A] true) 1 2
        (globals 0 0 [labeledAdapter 1 "TunerX".toList, labeledAdapter 2 "TunerY".toList])
      ).trace
        = [Event.libc_open "/dev/misc/vtuner0".toList O_RDWR none,
           Event.libc_open "/dev/misc/vtuner1".toList O_RDWR none]
    ∧ usb_tuner_open_slot
        (scan_usb_tuners (testEnv ["/dev/misc/vtuner0".toList] [SYS_DVBC_ANNEX_A] true) 1 2
          (globals 0 0 [labeledAdapter 1 "TunerX".toList, labeledAdapter 2 "TunerY".toList]))
        "/dev/dvb/adapter0/frontend2".toList = none := by
  decide

/-! ### Attach failure in the `open` hooks -/

/-- C7 at a failing input: slot 0 is bound, the caller opens its virtual
frontend path, the real control device opens (handle 3) and the bridge threads
fail to start.  `libusbtuner_open64` closes the handle, sets the slot's
control handle to -1 and returns -3 with `errno` `ENOMEM`, without calling the
authentic `open64`; `libusbtuner_open` tests `fd < 0` instead of `fd == -1`,
so it goes on to call the authentic `open` on the requested path and returns
what that returns (here the handle 6). -/
theorem libusbtuner_open_attach_failure :
    libusbtuner_open64 (testEnv [] [] false)
        (globals 0 1 [boundAdapter 1 "TunerX".toList 5 1])
        "/dev/dvb/adapter0/frontend1".toList O_RDWR (some 0)
      = some (-3,
          { globals 0 1 [{ boundAdapter 1 "TunerX".toList 5 1 with pumpthread := 1 }] with
            errno := ENOMEM,
            trace := [Event.libc_open "/dev/dvb/adapter1/frontend0".toList O_RDWR (some 0),
                      Event.pthread_create_data_task 0,
                      Event.libc_close 3] })
    ∧ libusbtuner_open (testEnv [] [] false)
        (globals 0 1 [boundAdapter 1 "TunerX".toList 5 1])
        "/dev/dvb/adapter0/frontend1".toList O_RDWR (some 0)
      = some (6,
          { globals 0 1 [{ boundAdapter 1 "TunerX".toList 5 1 with pumpthread := 1 }] with
            errno := ENOMEM,
            trace := [Event.libc_open "/dev/dvb/adapter1/frontend0".toList O_RDWR (some 0),
                      Event.pthread_create_data_task 0,
                      Event.libc_close 3,
                      Event.libc_open "/dev/dvb/adapter0/frontend1".toList O_RDWR (some 0)] })
    ∧ (boundAdapter 1 "TunerX".toList 5 1).frontend = -1 := by
  decide

/-! ### Negotiation in `init_adapter` -/

theorem capability_num_modes (reported : List Nat) :
    (capability_reduction reported).num_modes = (reduced_modes reported).length := by
  have h : ∀ s s2 c t t2 : Bool,
      (modes_loop { mode_mask := suppress_legacy (maskOf s s2 c t t2), num_modes := 0,
                    modes := [[], [], []] }).num_modes
        = ((modes_loop { mode_mask := suppress_legacy (maskOf s s2 c t t2), num_modes := 0,
                         modes := [[], [], []] }).modes.take
            (modes_loop { mode_mask := suppress_legacy (maskOf s s2 c t t2), num_modes := 0,
                          modes := [[], [], []] }).num_modes).length := by
    decide
  have h1 := h (decide (SYS_DVBS ∈ reported)) (decide (SYS_DVBS2 ∈ reported))
    (decide (SYS_DVBC_ANNEX_A ∈ reported)) (decide (SYS_DVBT ∈ reported))
    (decide (SYS_DVBT2 ∈ reported))
  rw [← delsys_mask_zero] at h1
  exact h1

/-- C9 as stated fails: when the real control device cannot be opened,
`init_adapter` returns -1 and releases the virtual tuner (handle 5) although
no capability query was made, so failure is not tied to a query that yields
zero usable modes. -/
theorem init_adapter_fails_without_query :
    init_adapter (testEnv ["/dev/dvb/adapter1/frontend0".toList] [SYS_DVBS2] true) []
        (boundAdapter 1 "TunerX".toList 5 1)
      = (-1, { boundAdapter 1 "TunerX".toList 5 1 with vtuner := -1 },
         [Event.libc_open "/dev/dvb/adapter1/frontend0".toList O_RDWR none,
          Event.libc_close 5])
    ∧ reduced_modes [SYS_DVBS2] = ["DVB-S2".toList] := by
  decide

theorem init_adapter_error_value (trace : List Event) (adapter : vtuner_adapter) :
    (init_adapter_error trace adapter).1 = -1
      ∧ (init_adapter_error trace adapter).2.1.vtuner < 0
      ∧ (0 ≤ adapter.vtuner → (init_adapter_error trace adapter).2.1.vtuner = -1) := by
  unfold init_adapter_error
  by_cases h1 : adapter.vtuner ≥ 0 <;> by_cases h2 : adapter.demux ≥ 0 <;>
    by_cases h3 : adapter.frontend ≥ 0 <;> simp [h1, h2, h3] <;> omega

/-- C9, as the code has it.  For a bound slot (`vtuner >= 0`), with `fd` the
result of opening the real control device: `init_adapter` returns -1 exactly
when that open fails or the capability query succeeds and leaves no mode, and
0 otherwise; on -1 the virtual tuner handle is closed and set to -1.  With
exactly one mode the virtual device receives `VTUNER_SET_TYPE` and no
mode-list command; with more than one it receives `VTUNER_SET_NUM_MODES` with
the count and `VTUNER_SET_MODES` with the list, and no `VTUNER_SET_TYPE`; when
the query itself fails it receives none of the three and 0 is returned. -/
theorem init_adapter_outcome (env : Env) (trace : List Event) (entry : vtuner_adapter)
    (hbound : 0 ≤ entry.vtuner) :
    let fd := (env.libc_open trace (frontend_filename entry.idx) O_RDWR none).1
    let opened := [Event.libc_open (frontend_filename entry.idx) O_RDWR none]
    let queried := opened ++ [Event.ioctl entry.vtuner (Ioctl.VTUNER_SET_NAME entry.name),
      Event.ioctl fd Ioctl.FE_GET_PROPERTY]
    let props := env.fe_get_property
      (trace ++ opened ++ [Event.ioctl entry.vtuner (Ioctl.VTUNER_SET_NAME entry.name)]) fd
    let finish := [Event.ioctl entry.vtuner (Ioctl.VTUNER_SET_HAS_OUTPUTS "no".toList),
      Event.malloc BUFFER_SIZE, Event.libc_close fd]
    let r := init_adapter env trace entry
    (r.1 = -1 ↔ fd < 0 ∨ (0 ≤ props.1 ∧ reduced_modes props.2 = []))
    ∧ (r.1 = -1 ∨ r.1 = 0)
    ∧ (r.1 = -1 → r.2.1.vtuner = -1)
    ∧ (r.1 = 0 → r.2.1.vtuner = entry.vtuner)
    ∧ (fd < 0 → r.2.2 = trace ++ opened ++ [Event.libc_close entry.vtuner])
    ∧ (0 ≤ fd → 0 ≤ props.1 → reduced_modes props.2 = [] →
        r.2.2 = trace ++ queried ++ [Event.libc_close entry.vtuner, Event.libc_close fd])
    ∧ (0 ≤ fd → 0 ≤ props.1 → (reduced_modes props.2).length = 1 →
        r.2.2 = trace ++ queried
          ++ [Event.ioctl entry.vtuner
                (Ioctl.VTUNER_SET_TYPE (capability_reduction props.2).modes)]
          ++ finish
        ∧ (capability_reduction props.2).modes.take 1 = reduced_modes props.2)
    ∧ (0 ≤ fd → 0 ≤ props.1 → 1 < (reduced_modes props.2).length →
        r.2.2 = trace ++ queried
          ++ [Event.ioctl entry.vtuner
                (Ioctl.VTUNER_SET_NUM_MODES (reduced_modes props.2).length),
              Event.ioctl entry.vtuner
                (Ioctl.VTUNER_SET_MODES (capability_reduction props.2).modes)]
          ++ finish
        ∧ (capability_reduction props.2).modes.take (reduced_modes props.2).length
            = reduced_modes props.2)
    ∧ (0 ≤ fd → props.1 < 0 → r.2.2 = trace ++ queried ++ finish) := by
  intro fd opened queried props finish r
  have hnum := capability_num_modes props.2
  have hnil : reduced_modes props.2 = [] ↔ (capability_reduction props.2).num_modes = 0 := by
    rw [hnum, List.length_eq_zero]
  have herr := fun (t : List Event) (a : vtuner_adapter) => init_adapter_error_value t a
  by_cases hfd : fd < 0
  · have hr : r = init_adapter_error (trace ++ opened)
        { entry with eventthread := 0, pumpthread := 0, demux := -1, frontend := fd } := by
      simp only [r, init_adapter]
      rw [if_pos hfd]
    have hfd' : ¬ (0 ≤ fd) := by omega
    refine ⟨?_, ?_, ?_, ?_, ?_, ?_, ?_, ?_, ?_⟩
    · rw [hr]; simp [(herr _ _).1, hfd]
    · rw [hr]; exact Or.inl (herr _ _).1
    · intro _; rw [hr]; exact (herr _ _).2.2 hbound
    · intro h; rw [hr, (herr _ _).1] at h; exact absurd h (by decide)
    · intro _
      rw [hr]
      have h1 : ¬ (fd ≥ 0) := by omega
      simp [init_adapter_error, hbound, h1]
    · intro h; exact absurd h hfd'
    · intro h; exact absurd h hfd'
    · intro h; exact absurd h hfd'
    · intro h; exact absurd h hfd'
  · have hfd' : 0 ≤ fd := by omega
    by_cases hq : 0 ≤ props.1
    · by_cases hz : (capability_reduction props.2).num_modes = 0
      · have hr : r = init_adapter_error (trace ++ queried)
            { entry with eventthread := 0, pumpthread := 0, demux := -1, frontend := fd } := by
          simp only [r, init_adapter]
          rw [if_neg hfd, if_pos hq, if_pos hz]
          simp [queried, opened]
        have hlen : (reduced_modes props.2).length = 0 := by rw [← hnum]; exact hz
        refine ⟨?_, ?_, ?_, ?_, ?_, ?_, ?_, ?_, ?_⟩
        · rw [hr]; simp [(herr _ _).1, hq, hnil.mpr hz]
        · rw [hr]; exact Or.inl (herr _ _).1
        · intro _; rw [hr]; exact (herr _ _).2.2 hbound
        · intro h; rw [hr, (herr _ _).1] at h; exact absurd h (by decide)
        · intro h; exact absurd h hfd
        · intro _ _ _
          rw [hr]
          simp [init_adapter_error, hbound, hfd']
        · intro _ _ h; omega
        · intro _ _ h; omega
        · intro _ h; omega
      · have hpos : 0 < (reduced_modes props.2).length := by rw [← hnum]; omega
        have hne : reduced_modes props.2 ≠ [] := fun h => hz (hnil.mp h)
        have htake : (capability_reduction props.2).modes.take (reduced_modes props.2).length
            = reduced_modes props.2 := by
          rw [← hnum]; rfl
        by_cases hmany : (capability_reduction props.2).num_modes > 1
        · have hr : r = init_adapter_finish
              (trace ++ queried
                ++ [Event.ioctl entry.vtuner
                      (Ioctl.VTUNER_SET_NUM_MODES (capability_reduction props.2).num_modes),
                    Event.ioctl entry.vtuner
                      (Ioctl.VTUNER_SET_MODES (capability_reduction props.2).modes)])
              { entry with eventthread := 0, pumpthread := 0, demux := -1, frontend := fd } := by
            simp only [r, init_adapter]
            rw [if_neg hfd, if_pos hq, if_neg hz, if_pos hmany]
            simp [queried, opened, props, fd]
          have hlen : 1 < (reduced_modes props.2).length := by rw [← hnum]; exact hmany
          refine ⟨?_, ?_, ?_, ?_, ?_, ?_, ?_, ?_, ?_⟩
          · rw [hr]; simp [init_adapter_finish, hfd, hne]
          · rw [hr]; exact Or.inr rfl
          · intro h; rw [hr] at h; simp [init_adapter_finish] at h
          · intro _; rw [hr]; rfl
          · intro h; exact absurd h hfd
          · intro _ _ h; exact absurd h hne
          · intro _ _ h; omega
          · intro _ _ _
            refine ⟨?_, htake⟩
            rw [hr, hnum]
            simp [init_adapter_finish, finish]
          · intro _ h; omega
        · have hr : r = init_adapter_finish
              (trace ++ queried
                ++ [Event.ioctl entry.vtuner
                      (Ioctl.VTUNER_SET_TYPE (capability_reduction props.2).modes)])
              { entry with eventthread := 0, pumpthread := 0, demux := -1, frontend := fd } := by
            simp only [r, init_adapter]
            rw [if_neg hfd, if_pos hq, if_neg hz, if_neg hmany]
            simp [queried, opened, props, fd]
          have hlen : (reduced_modes props.2).length = 1 := by rw [← hnum]; omega
          refine ⟨?_, ?_, ?_, ?_, ?_, ?_, ?_, ?_, ?_⟩
          · rw [hr]; simp [init_adapter_finish, hfd, hne]
          · rw [hr]; exact Or.inr rfl
          · intro h; rw [hr] at h; simp [init_adapter_finish] at h
          · intro _; rw [hr]; rfl
          · intro h; exact absurd h hfd
          · intro _ _ h; exact absurd h hne
          · intro _ _ _
            refine ⟨?_, hlen ▸ htake⟩
            rw [hr]
            simp [init_adapter_finish, finish]
          · intro _ _ h; omega
          · intro _ h; omega
    · have hr : r = init_adapter_finish (trace ++ queried)
          { entry with eventthread := 0, pumpthread := 0, demux := -1, frontend := fd } := by
        simp only [r, init_adapter]
        rw [if_neg hfd, if_neg hq]
        simp [queried, opened]
      refine ⟨?_, ?_, ?_, ?_, ?_, ?_, ?_, ?_, ?_⟩
      · rw [hr]; simp [init_adapter_finish, hfd, hq]
      · rw [hr]; exact Or.inr rfl
      · intro h; rw [hr] at h; simp [init_adapter_finish] at h
      · intro _; rw [hr]; rfl
      · intro h; exact absurd h hfd
      · intro _ h; exact absurd h hq
      · intro _ h; exact absurd h hq
      · intro _ h; exact absurd h hq
      · intro _ _
        rw [hr]
        simp [init_adapter_finish, finish]

/-- C9 at a concrete input: a bound slot whose tuner reports DVB-S, DVB-S2 and
DVB-C is negotiated with a mode count of 2 and the mode list, and the code
returns 0. -/
theorem init_adapter_outcome_witness :
    (0 : Int) ≤ (boundAdapter 1 "TunerX".toList 5 1).vtuner
    ∧ ((init_adapter (testEnv [] [SYS_DVBS, SYS_DVBS2, SYS_DVBC_ANNEX_A] true) []
          (boundAdapter 1 "TunerX".toList 5 1)).1 = -1 ∨
       (init_adapter (testEnv [] [SYS_DVBS, SYS_DVBS2, SYS_DVBC_ANNEX_A] true) []
          (boundAdapter 1 "TunerX".toList 5 1)).1 = 0)
    ∧ (init_adapter (testEnv [] [SYS_DVBS, SYS_DVBS2, SYS_DVBC_ANNEX_A] true) []
          (boundAdapter 1 "TunerX".toList 5 1)).2.2
        = [Event.libc_open "/dev/dvb/adapter1/frontend0".toList O_RDWR none,
           Event.ioctl 5 (Ioctl.VTUNER_SET_NAME "TunerX".toList),
           Event.ioctl 3 Ioctl.FE_GET_PROPERTY,
           Event.ioctl 5 (Ioctl.VTUNER_SET_NUM_MODES 2),
           Event.ioctl 5 (Ioctl.VTUNER_SET_MODES ["DVB-S2".toList, "DVB-C".toList, []]),
           Event.ioctl 5 (Ioctl.VTUNER_SET_HAS_OUTPUTS "no".toList),
           Event.malloc BUFFER_SIZE,
           Event.libc_close 3] :=
  ⟨by decide,
   (init_adapter_outcome (testEnv [] [SYS_DVBS, SYS_DVBS2, SYS_DVBC_ANNEX_A] true) []
      (boundAdapter 1 "TunerX".toList 5 1) (by decide)).2.1,
   by decide⟩

/-! ### The path rewrite rule and the hooks -/

theorem mem_take_of_getElem? (l : List vtuner_adapter) (n i : Nat) (a : vtuner_adapter)
    (hi : i < n) (h : l[i]? = some a) : a ∈ l.take n := by
  have h1 : (l.take n)[i]? = some a := by
    rw [List.getElem?_take_of_lt hi]; exact h
  exact List.getElem?_mem h1

theorem usb_tuner_open_slot_none (s : State) (path : CString)
    (h : ∀ a ∈ s.adapters.take s.assigned_adapters, 0 ≤ a.vtuner →
      path ≠ virtual_frontend s.main_adapter_idx a.vtunerfeidx) :
    usb_tuner_open_slot s path = none := by
  unfold usb_tuner_open_slot
  rw [List.find?_range_eq_none]
  intro i hi
  cases hget : s.adapters[i]? with
  | none => rfl
  | some a =>
    have hmem := mem_take_of_getElem? s.adapters s.assigned_adapters i a hi hget
    by_cases hv : 0 ≤ a.vtuner
    · simp [hv, h a hmem hv]
    · simp [hv]

theorem rewrite_path_none (s : State) (p : CString)
    (h : s.assigned_adapters = 0 ∨ s.main_adapter_idx = 0 ∨
      (p.take 17 ≠ "/dev/dvb/adapter0".toList ∧
        p.take 17 ≠ "/dev/dvb/adapter".toList ++ [digit s.main_adapter_idx])) :
    rewrite_path s p = none := by
  unfold rewrite_path
  by_cases hc : s.assigned_adapters ≠ 0 ∧ s.main_adapter_idx ≠ 0
  · rw [if_pos hc]
    rcases h with h | h | ⟨h1, h2⟩
    · exact absurd h hc.1
    · exact absurd h hc.2
    · have e1 : strncmp_eq p "/dev/dvb/adapter0/              ".toList 17 = false := by
        unfold strncmp_eq
        rw [beq_eq_false_iff_ne]
        exact h1
      have e2 : strncmp_eq p ("/dev/dvb/adapter0/              ".toList.set 16
          (digit s.main_adapter_idx)) 17 = false := by
        unfold strncmp_eq
        rw [beq_eq_false_iff_ne]
        exact h2
      rw [e1, e2]
      rfl
  · rw [if_neg hc]

/-- The first 17 characters of the path `HANDLE_PATH` builds in `tmp`. -/
theorem rewrite_path_cases (s : State) (p : CString) :
    (rewrite_path s p = none ∧
        (s.assigned_adapters = 0 ∨ s.main_adapter_idx = 0 ∨
          (p.take 17 ≠ "/dev/dvb/adapter0".toList ∧
            p.take 17 ≠ "/dev/dvb/adapter".toList ++ [digit s.main_adapter_idx])))
    ∨ (rewrite_path s p = some ((p.take 32).set 16 (digit s.main_adapter_idx)) ∧
        s.assigned_adapters ≠ 0 ∧ s.main_adapter_idx ≠ 0 ∧
        p.take 17 = "/dev/dvb/adapter0".toList)
    ∨ (rewrite_path s p = some ((p.take 32).set 16 '0') ∧
        s.assigned_adapters ≠ 0 ∧ s.main_adapter_idx ≠ 0 ∧
        p.take 17 ≠ "/dev/dvb/adapter0".toList ∧
        p.take 17 = "/dev/dvb/adapter".toList ++ [digit s.main_adapter_idx]) := by
  by_cases hc : s.assigned_adapters ≠ 0 ∧ s.main_adapter_idx ≠ 0
  · by_cases h1 : p.take 17 = "/dev/dvb/adapter0".toList
    · right; left
      refine ⟨?_, hc.1, hc.2, h1⟩
      have e1 : strncmp_eq p "/dev/dvb/adapter0/              ".toList 17 = true := by
        unfold strncmp_eq
        rw [beq_iff_eq]
        exact h1
      unfold rewrite_path
      rw [if_pos hc, e1]
      rfl
    · have e1 : strncmp_eq p "/dev/dvb/adapter0/              ".toList 17 = false := by
        unfold strncmp_eq
        rw [beq_eq_false_iff_ne]
        exact h1
      by_cases h2 : p.take 17 = "/dev/dvb/adapter".toList ++ [digit s.main_adapter_idx]
      · right; right
        refine ⟨?_, hc.1, hc.2, h1, h2⟩
        have e2 : strncmp_eq p ("/dev/dvb/adapter0/              ".toList.set 16
            (digit s.main_adapter_idx)) 17 = true := by
          unfold strncmp_eq
          rw [beq_iff_eq]
          exact h2
        unfold rewrite_path
        rw [if_pos hc, e1, e2]
        rfl
      · left
        exact ⟨rewrite_path_none s p (Or.inr (Or.inr ⟨h1, h2⟩)), Or.inr (Or.inr ⟨h1, h2⟩)⟩
  · left
    have h : s.assigned_adapters = 0 ∨ s.main_adapter_idx = 0 ∨
        (p.take 17 ≠ "/dev/dvb/adapter0".toList ∧
          p.take 17 ≠ "/dev/dvb/adapter".toList ++ [digit s.main_adapter_idx]) := by
      by_cases ha : s.assigned_adapters = 0
      · exact Or.inl ha
      · by_cases hm : s.main_adapter_idx = 0
        · exact Or.inr (Or.inl hm)
        · exact absurd ⟨ha, hm⟩ hc
    exact ⟨rewrite_path_none s p h, h⟩

theorem digit_ne_zero (m : Nat) (hm : m < 8) (h0 : m ≠ 0) : digit m ≠ '0' := by
  interval_cases m <;> first | contradiction | decide

/-- C5 at failing inputs.  With main adapter 0 and slot 0 bound to the
physical adapter 1, `libusbtuner_stat` and `libusbtuner_stat64` called on the
slot's real frontend path `/dev/dvb/adapter1/frontend0` forward the call and
return the authentic result 0, although `check_access` answers -1 for that
path: the macro does not reach it.  With main adapter 1 and slot 0 bound to
the physical adapter 0, `stat` of the slot's real frontend path
`/dev/dvb/adapter0/frontend0` is forwarded as `/dev/dvb/adapter1/frontend0`,
while `stat` of `/dev/dvb/adapter1/frontend0`, the frontend of the main
adapter that no slot owns, returns -1 with `EACCES`. -/
theorem stat_guard_not_applied :
    frontend_filename (boundAdapter 1 "TunerX".toList 5 1).idx
        = "/dev/dvb/adapter1/frontend0".toList
    ∧ libusbtuner_stat (testEnv [] [] true) (globals 0 1 [boundAdapter 1 "TunerX".toList 5 1])
        3 "/dev/dvb/adapter1/frontend0".toList
      = (0, { globals 0 1 [boundAdapter 1 "TunerX".toList 5 1] with
              trace := [Event.libc_stat 3 "/dev/dvb/adapter1/frontend0".toList] })
    ∧ libusbtuner_stat64 (testEnv [] [] true)
        (globals 0 1 [boundAdapter 1 "TunerX".toList 5 1])
        3 "/dev/dvb/adapter1/frontend0".toList
      = (0, { globals 0 1 [boundAdapter 1 "TunerX".toList 5 1] with
              trace := [Event.libc_stat64 3 "/dev/dvb/adapter1/frontend0".toList] })
    ∧ check_access (globals 0 1 [boundAdapter 1 "TunerX".toList 5 1])
        "/dev/dvb/adapter1/frontend0".toList = -1
    ∧ frontend_filename (boundAdapter 0 "TunerX".toList 5 1).idx
        = "/dev/dvb/adapter0/frontend0".toList
    ∧ libusbtuner_stat (testEnv [] [] true) (globals 1 1 [boundAdapter 0 "TunerX".toList 5 1])
        3 "/dev/dvb/adapter0/frontend0".toList
      = (0, { globals 1 1 [boundAdapter 0 "TunerX".toList 5 1] with
              trace := [Event.libc_stat 3 "/dev/dvb/adapter1/frontend0".toList] })
    ∧ libusbtuner_stat (testEnv [] [] true) (globals 1 1 [boundAdapter 0 "TunerX".toList 5 1])
        3 "/dev/dvb/adapter1/frontend0".toList
      = (-1, { globals 1 1 [boundAdapter 0 "TunerX".toList 5 1] with errno := EACCES }) := by
  decide

/-- C6, as the code has it: the rewrite rule exchanges the adapter indices 0
and m.  For every slot table with an assigned adapter, every main adapter
index m below `MAX_ADAPTERS` and every suffix X: when m is 0 nothing is rewritten and the
two spellings are one string; when m is not 0, `/dev/dvb/adapter0/X` becomes
`/dev/dvb/adapter<m>/X` and `/dev/dvb/adapter<m>/X` becomes
`/dev/dvb/adapter0/X` (both cut to 32 characters, which changes nothing for X
of at most 14 characters), so the two results differ and the rewritten
`/dev/dvb/adapter<m>/X` matches no bound slot in `check_usb_tuner_open`. -/
theorem rewrite_path_exchanges (s : State) (X : CString)
    (ha : s.assigned_adapters ≠ 0) (hm : s.main_adapter_idx < MAX_ADAPTERS) :
    (s.main_adapter_idx = 0 →
        "/dev/dvb/adapter".toList ++ digit s.main_adapter_idx :: '/' :: X
          = "/dev/dvb/adapter0/".toList ++ X
        ∧ rewrite_path s ("/dev/dvb/adapter0/".toList ++ X) = none)
    ∧ (s.main_adapter_idx ≠ 0 →
        rewrite_path s ("/dev/dvb/adapter0/".toList ++ X)
          = some (("/dev/dvb/adapter".toList ++ digit s.main_adapter_idx :: '/' :: X).take 32)
        ∧ rewrite_path s ("/dev/dvb/adapter".toList ++ digit s.main_adapter_idx :: '/' :: X)
          = some (("/dev/dvb/adapter0/".toList ++ X).take 32)
        ∧ rewrite_path s ("/dev/dvb/adapter0/".toList ++ X)
          ≠ rewrite_path s ("/dev/dvb/adapter".toList ++ digit s.main_adapter_idx :: '/' :: X)
        ∧ usb_tuner_open_slot s (("/dev/dvb/adapter0/".toList ++ X).take 32) = none
        ∧ (X.length ≤ 14 →
            ("/dev/dvb/adapter".toList ++ digit s.main_adapter_idx :: '/' :: X).take 32
              = "/dev/dvb/adapter".toList ++ digit s.main_adapter_idx :: '/' :: X
            ∧ ("/dev/dvb/adapter0/".toList ++ X).take 32
              = "/dev/dvb/adapter0/".toList ++ X)) := by
  constructor
  · intro h0
    refine ⟨by rw [h0]; rfl, rewrite_path_none s _ (Or.inr (Or.inl h0))⟩
  · intro h0
    have hd := digit_ne_zero s.main_adapter_idx hm h0
    have r1 : rewrite_path s ("/dev/dvb/adapter0/".toList ++ X)
        = some (("/dev/dvb/adapter".toList ++ digit s.main_adapter_idx :: '/' :: X).take 32) := by
      rcases rewrite_path_cases s ("/dev/dvb/adapter0/".toList ++ X) with
        ⟨_, hc⟩ | ⟨hrw, _⟩ | ⟨_, _, _, hne, _⟩
      · rcases hc with hc | hc | hc
        · exact absurd hc ha
        · exact absurd hc h0
        · exact absurd rfl hc.1
      · rw [hrw]; rfl
      · exact absurd rfl hne
    have r2 : rewrite_path s ("/dev/dvb/adapter".toList ++ digit s.main_adapter_idx :: '/' :: X)
        = some (("/dev/dvb/adapter0/".toList ++ X).take 32) := by
      rcases rewrite_path_cases s
          ("/dev/dvb/adapter".toList ++ digit s.main_adapter_idx :: '/' :: X) with
        ⟨_, hc⟩ | ⟨_, _, _, he⟩ | ⟨hrw, _⟩
      · rcases hc with hc | hc | hc
        · exact absurd hc ha
        · exact absurd hc h0
        · exact absurd rfl hc.2
      · have e : digit s.main_adapter_idx = '0' := by
          have := congrArg (fun l => l.getD 16 ' ') he
          exact this
        exact absurd e hd
      · rw [hrw]; rfl
    have hdiff : ("/dev/dvb/adapter".toList ++ digit s.main_adapter_idx :: '/' :: X).take 32
        ≠ ("/dev/dvb/adapter0/".toList ++ X).take 32 := by
      intro he
      have := congrArg (fun l => l.getD 16 ' ') he
      exact hd this
    refine ⟨r1, r2, ?_, ?_, ?_⟩
    · rw [r1, r2]
      intro he
      exact hdiff (Option.some.inj he)
    · apply usb_tuner_open_slot_none
      intro a _ _ he
      have := congrArg (fun l => l.getD 16 ' ') he
      exact hd this.symm
    · intro hx
      constructor
      · apply List.take_of_length_le
        simp only [List.length_append, List.length_cons]
        have : "/dev/dvb/adapter".toList.length = 16 := rfl
        omega
      · apply List.take_of_length_le
        simp only [List.length_append]
        have : "/dev/dvb/adapter0/".toList.length = 18 := rfl
        omega

/-- C6 at a concrete input: main adapter 1, slot 0 bound with virtual
frontend index 1, suffix `frontend1`. -/
theorem rewrite_path_exchanges_witness :
    rewrite_path (globals 1 1 [boundAdapter 2 "TunerX".toList 5 1])
        "/dev/dvb/adapter0/frontend1".toList
      = some "/dev/dvb/adapter1/frontend1".toList
    ∧ rewrite_path (globals 1 1 [boundAdapter 2 "TunerX".toList 5 1])
        "/dev/dvb/adapter1/frontend1".toList
      = some "/dev/dvb/adapter0/frontend1".toList :=
  ⟨((rewrite_path_exchanges (globals 1 1 [boundAdapter 2 "TunerX".toList 5 1])
      "frontend1".toList (by decide) (by decide)).2 (by decide)).1,
   ((rewrite_path_exchanges (globals 1 1 [boundAdapter 2 "TunerX".toList 5 1])
      "frontend1".toList (by decide) (by decide)).2 (by decide)).2.1⟩

/-- C6 as stated fails: with main adapter 1 and slot 0 bound with virtual
frontend index 1, rewriting `/dev/dvb/adapter0/frontend1` gives
`/dev/dvb/adapter1/frontend1`, which matches slot 0 in
`check_usb_tuner_open`, while rewriting `/dev/dvb/adapter1/frontend1` gives
`/dev/dvb/adapter0/frontend1`, which matches no slot. -/
theorem rewrite_path_not_same_counterexample :
    HANDLE_PATH (globals 1 1 [boundAdapter 2 "TunerX".toList 5 1])
        "/dev/dvb/adapter0/frontend1".toList
      = some "/dev/dvb/adapter1/frontend1".toList
    ∧ HANDLE_PATH (globals 1 1 [boundAdapter 2 "TunerX".toList 5 1])
        "/dev/dvb/adapter1/frontend1".toList
      = some "/dev/dvb/adapter0/frontend1".toList
    ∧ usb_tuner_open_slot (globals 1 1 [boundAdapter 2 "TunerX".toList 5 1])
        "/dev/dvb/adapter1/frontend1".toList = some 0
    ∧ usb_tuner_open_slot (globals 1 1 [boundAdapter 2 "TunerX".toList 5 1])
        "/dev/dvb/adapter0/frontend1".toList = none := by
  decide

end Libusbtuner
